import Mathlib

/-!
Shallow embedding of the Netraone multi-modal deepfake-detection pipeline
(src/face_detection.py, src/voice_detection.py, src/video_detection.py).

Scores are modelled as exact rationals (ℚ).  The source's calls to
random.uniform / np.random are modelled as explicit parameters: each
randomly drawn signal becomes an argument of the embedded function, so
the embedding describes the code's behaviour for every possible draw.
Python's round(x, 2) is modelled as rounding to two decimal places on ℚ.
Python dictionaries whose key set differs between branches are modelled
as structures with Option fields (a missing key is none); reading a
missing key is a KeyError, modelled in the Except monad.
-/

namespace Netraone

/-- Rounding a rational to two decimal places, the model of Python's
round(x, 2) as used for every confidence field in the source. -/
def round2 (x : ℚ) : ℚ := ((round (x * 100) : ℤ) : ℚ) / 100

/-- Arithmetic mean of a list of rationals (np.mean). -/
def mean (l : List ℚ) : ℚ := l.sum / (l.length : ℚ)

/-- Population variance of a list of rationals (np.var). -/
def variance (l : List ℚ) : ℚ := mean (l.map (fun x => (x - mean l) ^ 2))

/-- Dot product of two vectors given as lists (np.dot). -/
def dot (u v : List ℚ) : ℚ := ((u.zip v).map (fun p => p.1 * p.2)).sum

/-- All pairwise dot products over the pairs (i, j) with i < j, in the
order the nested loops of verify_speaker_consistency produce them. -/
def pairwiseDots : List (List ℚ) → List ℚ
  | [] => []
  | e :: rest => rest.map (dot e) ++ pairwiseDots rest

/-! ## Image detector (src/face_detection.py, FaceNetDetector) -/

/-- Weighted combination computed in FaceNetDetector.analyze_authenticity
(lines 117-119): authenticity 0.6, lighting-consistency 0.2,
compression-artifact 0.2. -/
def imageOverall (a l c : ℚ) : ℚ :=
  a * (6/10) + l * (2/10) + c * (2/10)

/-- Dictionary returned by FaceNetDetector.analyze_authenticity.  The
key authenticity_score holds the combined final_score, not the raw
authenticity draw. -/
structure ImageAnalysis where
  authenticity_score : ℚ
  consistency_score : ℚ
  artifact_score : ℚ
  faces_detected : ℕ
  deriving DecidableEq, Repr

/-- FaceNetDetector.analyze_authenticity: a is the mock authenticity
draw, l the lighting-consistency draw, c the compression-artifact draw,
faces the length of the detect_faces list. -/
def analyze_authenticity (a l c : ℚ) (faces : ℕ) : ImageAnalysis :=
  { authenticity_score := imageOverall a l c
    consistency_score := l
    artifact_score := c
    faces_detected := faces }

/-- Result dictionary of a modality detector's detect method. -/
structure ImageResult where
  result : String
  confidence : ℚ
  model : String
  details : ImageAnalysis
  deriving DecidableEq, Repr

/-- FaceNetDetector.detect (lines 152-165): verdict is authentic iff the
combined authenticity_score is strictly greater than 0.75; confidence is
the score times 100, rounded to two decimals. -/
def imageDetect (a l c : ℚ) (faces : ℕ) : ImageResult :=
  let analysis := analyze_authenticity a l c faces
  let is_authentic : Bool := decide ((75/100 : ℚ) < analysis.authenticity_score)
  { result := if is_authentic then "authentic" else "deepfake"
    confidence := round2 (analysis.authenticity_score * 100)
    model := "FaceNet + DeepFace"
    details := analysis }

/-! ## Audio detector (src/voice_detection.py, ResemblyzerDetector) -/

/-- Dictionary returned by analyze_voice_characteristics; the raw audio
statistics (mfcc features, spectral centroid, zero-crossing rate,
duration) are descriptive metadata never read by any decision and are
not tracked. -/
structure AudioAnalysis where
  naturalness_score : ℚ
  consistency_score : ℚ
  artifact_score : ℚ
  deriving DecidableEq, Repr

/-- Weighted combination computed in ResemblyzerDetector.detect
(lines 159-163): naturalness 0.4, consistency 0.3, artifact 0.3. -/
def audioOverall (n k r : ℚ) : ℚ :=
  n * (4/10) + k * (3/10) + r * (3/10)

/-- Result dictionary of ResemblyzerDetector.detect. -/
structure AudioResult where
  result : String
  confidence : ℚ
  model : String
  details : AudioAnalysis
  deriving DecidableEq, Repr

/-- ResemblyzerDetector.detect (lines 154-174): verdict is authentic iff
the weighted overall score is strictly greater than 0.72; confidence is
the overall score times 100, rounded to two decimals. -/
def audioDetect (n k r : ℚ) : AudioResult :=
  let overall_score := audioOverall n k r
  let is_authentic : Bool := decide ((72/100 : ℚ) < overall_score)
  { result := if is_authentic then "authentic" else "deepfake"
    confidence := round2 (overall_score * 100)
    model := "Resemblyzer + ECAPA-TDNN"
    details := { naturalness_score := n, consistency_score := k, artifact_score := r } }

/-! ## Speaker consistency (src/voice_detection.py, ECAPATDNNDetector) -/

/-- Python range(0, n, step): the segment start offsets used to split the
audio sample array (lines 234-235). -/
def rangeStep (n step : ℕ) : List ℕ :=
  if step = 0 then [] else (List.range ((n + step - 1) / step)).map (fun i => i * step)

/-- Lengths of the slices audio[i : i+3*sr] for i in range(0, n, 3*sr),
where n is the number of samples and sr the sample rate: the 3-second
segments of verify_speaker_consistency. -/
def segmentLengths (n sr : ℕ) : List ℕ :=
  (rangeStep n (3 * sr)).map (fun i => min (3 * sr) (n - i))

/-- Segment lengths the source keeps: the loop guard at line 240 is
len(segment) > sr, so only segments strictly longer than one second are
embedded. -/
def usableSegLens (n sr : ℕ) : List ℕ :=
  (segmentLengths n sr).filter (fun l => sr < l)

/-- Modelled from the spec's words, for comparison with usableSegLens:
the spec says segments shorter than 1 s are discarded, which keeps every
segment of at least sr samples (at least one second). -/
def usableSegLensSpecRead (n sr : ℕ) : List ℕ :=
  (segmentLengths n sr).filter (fun l => sr ≤ l)

/-- Dictionary returned by verify_speaker_consistency.  The short-audio
branch (line 246) and the exception branch (line 266) carry only the
consistency_score key, so the other keys are Option. -/
structure SpeakerResult where
  consistency_score : ℚ
  num_segments : Option ℕ
  avg_similarity : Option ℚ
  deriving DecidableEq, Repr

/-- ECAPATDNNDetector.verify_speaker_consistency (lines 219-266).
n is the sample count of the loaded audio, sr its sample rate, embed
the sequence of mock segment embeddings drawn in loop order, cs the mock
consistency draw, fails whether an exception fired inside the try block
(the handler substitutes consistency_score 0.5). -/
def verify_speaker_consistency (n sr : ℕ) (embed : ℕ → List ℚ) (cs : ℚ)
    (fails : Bool) : SpeakerResult :=
  if fails then { consistency_score := 1/2, num_segments := none, avg_similarity := none }
  else
    let embeddings := (List.range (usableSegLens n sr).length).map embed
    if embeddings.length < 2 then
      { consistency_score := 8/10, num_segments := none, avg_similarity := none }
    else
      let similarities := pairwiseDots embeddings
      { consistency_score := cs
        num_segments := some (segmentLengths n sr).length
        avg_similarity := some (if similarities.isEmpty then 8/10 else mean similarities) }

/-- Modelled from the spec's words (the discard rule uses "shorter than
1 second"): identical to verify_speaker_consistency except that segments
of exactly one second are kept. -/
def verify_speaker_consistency_specRead (n sr : ℕ) (embed : ℕ → List ℚ) (cs : ℚ)
    (fails : Bool) : SpeakerResult :=
  if fails then { consistency_score := 1/2, num_segments := none, avg_similarity := none }
  else
    let embeddings := (List.range (usableSegLensSpecRead n sr).length).map embed
    if embeddings.length < 2 then
      { consistency_score := 8/10, num_segments := none, avg_similarity := none }
    else
      let similarities := pairwiseDots embeddings
      { consistency_score := cs
        num_segments := some (segmentLengths n sr).length
        avg_similarity := some (if similarities.isEmpty then 8/10 else mean similarities) }

/-! ## Video detector (src/video_detection.py, VideoDeepfakeDetector) -/

/-- Frame sampling stride of extract_frames (lines 47-50): 1 when the
frame count is at most max_frames, integer division otherwise. -/
def sampleStep (frameCount maxFrames : ℕ) : ℕ :=
  if frameCount ≤ maxFrames then 1 else frameCount / maxFrames

/-- Indices of the frames extract_frames keeps (lines 52-63): every
frame index divisible by the stride, stopping once max_frames frames
have been collected. -/
def extractFrameIndices (frameCount maxFrames : ℕ) : List ℕ :=
  ((List.range frameCount).filter
    (fun i => i % sampleStep frameCount maxFrames = 0)).take maxFrames

/-- Dictionary returned by analyze_temporal_consistency.  The short
branch (line 117) carries only consistency_score, the exception branch
(line 148) only avg_consistency, the full branch the four keys of
lines 139-144. -/
structure TemporalAnalysis where
  avg_consistency : Option ℚ
  consistency_score : Option ℚ
  consistency_variance : Option ℚ
  frame_count : Option ℕ
  suspicious_transitions : Option ℕ
  deriving DecidableEq, Repr

/-- VideoDeepfakeDetector.analyze_temporal_consistency (lines 105-148).
frames is the sampled frame list (frame contents abstracted to ℚ),
pairScore the mock per-adjacent-pair consistency draws, fails whether an
exception fired inside the try block (the handler substitutes
avg_consistency 0.5). -/
def analyze_temporal_consistency (frames : List ℚ) (pairScore : ℕ → ℚ)
    (fails : Bool) : TemporalAnalysis :=
  if fails then
    { avg_consistency := some (1/2), consistency_score := none,
      consistency_variance := none, frame_count := none, suspicious_transitions := none }
  else if frames.length < 2 then
    { avg_consistency := none, consistency_score := some (8/10),
      consistency_variance := none, frame_count := none, suspicious_transitions := none }
  else
    let scores := (List.range (frames.length - 1)).map pairScore
    { avg_consistency := some (mean scores)
      consistency_score := none
      consistency_variance := some (variance scores)
      frame_count := some frames.length
      suspicious_transitions := some ((scores.filter (fun s => s < 3/4)).length) }

/-- Dictionary returned by analyze_audio_video_sync; the exception
branch (line 181) carries only sync_score (substituted 0.5). -/
structure SyncAnalysis where
  sync_score : ℚ
  lip_sync_confidence : Option ℚ
  audio_segments_detected : Option ℕ
  video_segments_analyzed : Option ℕ
  deriving DecidableEq, Repr

/-- VideoDeepfakeDetector.analyze_audio_video_sync (lines 150-181) with
its four mock draws as parameters; fails selects the exception branch. -/
def analyze_audio_video_sync (fails : Bool) (s lsc : ℚ) (asd vsa : ℕ) : SyncAnalysis :=
  if fails then
    { sync_score := 1/2, lip_sync_confidence := none,
      audio_segments_detected := none, video_segments_analyzed := none }
  else
    { sync_score := s, lip_sync_confidence := some lsc,
      audio_segments_detected := some asd, video_segments_analyzed := some vsa }

/-- Weighted fusion of VideoDeepfakeDetector.detect (lines 224-229):
face 0.35, audio 0.25, temporal 0.25, sync 0.15. -/
def videoOverall (f a t s : ℚ) : ℚ :=
  f * (35/100) + a * (25/100) + t * (25/100) + s * (15/100)

/-- Verdict rule of VideoDeepfakeDetector.detect (lines 232-236):
authentic iff the overall score is strictly greater than 0.72. -/
def videoVerdict (overall : ℚ) : String :=
  if (72/100 : ℚ) < overall then "authentic" else "deepfake"

/-- Which of the two temporary files created during one call of
VideoDeepfakeDetector.detect still exist on disk: the representative
frame written at line 201 and the audio track created by extract_audio
at line 86. -/
structure TempState where
  frameFile : Bool
  audioFile : Bool
  deriving DecidableEq, Repr

/-- Python exceptions that can escape VideoDeepfakeDetector.detect:
a re-raised extractor error, the IndexError from frames[0] on an empty
frame list (line 202), and the KeyError from reading the missing
avg_consistency key (line 220). -/
inductive PyErr where
  | extraction
  | indexErrorFrames
  | keyErrorAvgConsistency
  deriving DecidableEq, Repr

/-- One run of VideoDeepfakeDetector.detect: the outcome of every
extractor call and every mock random draw made during the call.
framesResult is none when extract_frames raises; audioWriteFails is true
when extract_audio raises after having created its temporary file;
imageSignals is none when the face-analysis chain raises (its values are
the authenticity, lighting and artifact draws plus the detect_faces
count); audioSignals is none when analyze_voice_characteristics raises
(naturalness, consistency, artifact draws).  The remaining fields feed
the temporal, sync and speaker analyses, which never raise. -/
structure VideoRun where
  framesResult : Option (List ℚ)
  audioWriteFails : Bool
  imageSignals : Option (ℚ × ℚ × ℚ × ℕ)
  audioSignals : Option (ℚ × ℚ × ℚ)
  temporalFails : Bool
  pairScore : ℕ → ℚ
  syncFails : Bool
  syncScore : ℚ
  lipSyncConfidence : ℚ
  audioSegmentsDetected : ℕ
  videoSegmentsAnalyzed : ℕ
  speakerFails : Bool
  audioSamples : ℕ
  audioSr : ℕ
  speakerEmbed : ℕ → List ℚ
  speakerCs : ℚ

/-- Result dictionary of VideoDeepfakeDetector.detect with its details
sub-dictionaries. -/
structure VideoResult where
  result : String
  confidence : ℚ
  model : String
  face_analysis : ImageResult
  audio_analysis : AudioResult
  temporal_analysis : TemporalAnalysis
  sync_analysis : SyncAnalysis
  speaker_analysis : SpeakerResult
  deriving DecidableEq, Repr

/-- VideoDeepfakeDetector.detect (lines 183-254), as a function from the
run's extractor outcomes to the returned dictionary or escaping
exception, paired with the set of temporary files still on disk after
the call.  The try/finally at lines 251-254 removes the audio file only
when the local audio_path was assigned; the frame file is removed only
by the unlink at line 208, which failure paths before it skip. -/
def videoDetect (run : VideoRun) : Except PyErr VideoResult × TempState :=
  match run.framesResult with
  | none =>
      (Except.error PyErr.extraction, { frameFile := false, audioFile := false })
  | some frames =>
      if run.audioWriteFails then
        (Except.error PyErr.extraction, { frameFile := false, audioFile := true })
      else
        match frames with
        | [] =>
            (Except.error PyErr.indexErrorFrames, { frameFile := true, audioFile := false })
        | _ :: _ =>
            match run.imageSignals with
            | none =>
                (Except.error PyErr.extraction, { frameFile := true, audioFile := false })
            | some (a, l, c, faces) =>
                let face_analysis := imageDetect a l c faces
                let temporal_analysis :=
                  analyze_temporal_consistency frames run.pairScore run.temporalFails
                match run.audioSignals with
                | none =>
                    (Except.error PyErr.extraction,
                     { frameFile := false, audioFile := false })
                | some (n, k, r) =>
                    let audio_analysis := audioDetect n k r
                    let speaker_analysis :=
                      verify_speaker_consistency run.audioSamples run.audioSr
                        run.speakerEmbed run.speakerCs run.speakerFails
                    let sync_analysis :=
                      analyze_audio_video_sync run.syncFails run.syncScore
                        run.lipSyncConfidence run.audioSegmentsDetected
                        run.videoSegmentsAnalyzed
                    match temporal_analysis.avg_consistency with
                    | none =>
                        (Except.error PyErr.keyErrorAvgConsistency,
                         { frameFile := false, audioFile := false })
                    | some temporal_score =>
                        let face_score := face_analysis.confidence / 100
                        let audio_score := audio_analysis.confidence / 100
                        let overall_score :=
                          videoOverall face_score audio_score temporal_score
                            sync_analysis.sync_score
                        (Except.ok
                          { result := videoVerdict overall_score
                            confidence := round2 (overall_score * 100)
                            model := "FaceNet + ECAPA-TDNN"
                            face_analysis := face_analysis
                            audio_analysis := audio_analysis
                            temporal_analysis := temporal_analysis
                            sync_analysis := sync_analysis
                            speaker_analysis := speaker_analysis },
                         { frameFile := false, audioFile := false })

/-- Confidence of a detection outcome, none when an exception escaped. -/
def outcomeConfidence (e : Except PyErr VideoResult) : Option ℚ :=
  match e with
  | Except.ok r => some r.confidence
  | Except.error _ => none

/-- Sync score recorded in a detection outcome, none when an exception
escaped. -/
def outcomeSyncScore (e : Except PyErr VideoResult) : Option ℚ :=
  match e with
  | Except.ok r => some r.sync_analysis.sync_score
  | Except.error _ => none

/-- Speaker-consistency sub-result of a detection outcome. -/
def outcomeSpeaker (e : Except PyErr VideoResult) : Option SpeakerResult :=
  match e with
  | Except.ok r => some r.speaker_analysis
  | Except.error _ => none

/-- Temporal avg_consistency recorded in a detection outcome. -/
def outcomeTemporalAvg (e : Except PyErr VideoResult) : Option (Option ℚ) :=
  match e with
  | Except.ok r => some r.temporal_analysis.avg_consistency
  | Except.error _ => none

/-- A fully benign run: 2 sampled frames, every extractor succeeds, all
mock draws fixed at simple values. -/
def benignRun : VideoRun :=
  { framesResult := some [0, 0]
    audioWriteFails := false
    imageSignals := some (9/10, 8/10, 8/10, 1)
    audioSignals := some (8/10, 8/10, 8/10)
    temporalFails := false
    pairScore := fun _ => 8/10
    syncFails := false
    syncScore := 8/10
    lipSyncConfidence := 8/10
    audioSegmentsDetected := 5
    videoSegmentsAnalyzed := 10
    speakerFails := false
    audioSamples := 110250
    audioSr := 22050
    speakerEmbed := fun _ => [1]
    speakerCs := 8/10 }

/-- Helper projection: the exception escaping a detection outcome, none
when the call returned normally. -/
def outcomeError (e : Except PyErr VideoResult) : Option PyErr :=
  match e with
  | Except.ok _ => none
  | Except.error err => some err

/-! ## Theorems -/

/-- Claim C1: for image signals a (authenticity), l (lighting
consistency), c (compression artifact) in [0,1], the image detector's
overall score is a*0.6 + l*0.2 + c*0.2, its confidence is that score
times 100 rounded to two decimals, and its verdict is authentic exactly
when the score is strictly greater than 0.75; at a=0.9, l=0.8, c=0.8 the
score is 0.86, the confidence 86.0 and the verdict authentic. -/
theorem imageDetect_correct (a l c : ℚ) (faces : ℕ)
    (ha : 0 ≤ a ∧ a ≤ 1) (hl : 0 ≤ l ∧ l ≤ 1) (hc : 0 ≤ c ∧ c ≤ 1) :
    (imageDetect a l c faces).details.authenticity_score
        = a * (6/10) + l * (2/10) + c * (2/10)
    ∧ (imageDetect a l c faces).confidence
        = round2 ((a * (6/10) + l * (2/10) + c * (2/10)) * 100)
    ∧ ((imageDetect a l c faces).result = "authentic"
        ↔ (75/100 : ℚ) < a * (6/10) + l * (2/10) + c * (2/10))
    ∧ (imageDetect (9/10) (8/10) (8/10) 1).details.authenticity_score = 86/100
    ∧ (imageDetect (9/10) (8/10) (8/10) 1).confidence = 86
    ∧ (imageDetect (9/10) (8/10) (8/10) 1).result = "authentic" := by
  refine ⟨rfl, rfl, ?_, ?_, ?_, ?_⟩
  · by_cases h : (75/100 : ℚ) < a * (6/10) + l * (2/10) + c * (2/10) <;>
      simp [imageDetect, analyze_authenticity, imageOverall, h]
  · norm_num [imageDetect, analyze_authenticity, imageOverall]
  · norm_num [imageDetect, analyze_authenticity, imageOverall, round2, round_eq]
  · norm_num [imageDetect, analyze_authenticity, imageOverall]

/-- Closed instantiation of imageDetect_correct at the end-to-end
example of the claim. -/
theorem imageDetect_correct_witness :
    ((0:ℚ) ≤ 9/10 ∧ (9/10:ℚ) ≤ 1) ∧ ((0:ℚ) ≤ 8/10 ∧ (8/10:ℚ) ≤ 1)
    ∧ ((imageDetect (9/10) (8/10) (8/10) 1).result = "authentic"
        ↔ (75/100 : ℚ) < (9/10) * (6/10) + (8/10) * (2/10) + (8/10) * (2/10)) :=
  ⟨by norm_num, by norm_num,
    (imageDetect_correct (9/10) (8/10) (8/10) 1
      (by norm_num) (by norm_num) (by norm_num)).2.2.1⟩

/-- Claim C2: for audio signals n (naturalness), k (consistency),
r (artifact) in [0,1], the audio detector's overall score is
n*0.4 + k*0.3 + r*0.3, its confidence is that score times 100 rounded
to two decimals, and its verdict is authentic exactly when the score is
strictly greater than 0.72; at n=k=r=0.5 the score is 0.5, the
confidence 50.0 and the verdict deepfake. -/
theorem audioDetect_correct (n k r : ℚ)
    (hn : 0 ≤ n ∧ n ≤ 1) (hk : 0 ≤ k ∧ k ≤ 1) (hr : 0 ≤ r ∧ r ≤ 1) :
    audioOverall n k r = n * (4/10) + k * (3/10) + r * (3/10)
    ∧ (audioDetect n k r).confidence = round2 (audioOverall n k r * 100)
    ∧ ((audioDetect n k r).result = "authentic"
        ↔ (72/100 : ℚ) < audioOverall n k r)
    ∧ audioOverall (1/2) (1/2) (1/2) = 1/2
    ∧ (audioDetect (1/2) (1/2) (1/2)).confidence = 50
    ∧ (audioDetect (1/2) (1/2) (1/2)).result = "deepfake" := by
  refine ⟨rfl, rfl, ?_, ?_, ?_, ?_⟩
  · by_cases h : (72/100 : ℚ) < audioOverall n k r <;>
      simp [audioDetect, h]
  · norm_num [audioOverall]
  · norm_num [audioDetect, audioOverall, round2, round_eq]
  · norm_num [audioDetect, audioOverall]

/-- Closed instantiation of audioDetect_correct at the end-to-end
example of the claim. -/
theorem audioDetect_correct_witness :
    ((0:ℚ) ≤ 1/2 ∧ (1/2:ℚ) ≤ 1)
    ∧ ((audioDetect (1/2) (1/2) (1/2)).result = "authentic"
        ↔ (72/100 : ℚ) < audioOverall (1/2) (1/2) (1/2)) :=
  ⟨by norm_num,
    (audioDetect_correct (1/2) (1/2) (1/2)
      (by norm_num) (by norm_num) (by norm_num)).2.2.1⟩

/-- Claim C3: for face, audio, temporal and sync scores in [0,1] the
video fusion used by VideoDeepfakeDetector.detect is
f*0.35 + a*0.25 + t*0.25 + s*0.15, the verdict is authentic exactly
when that score is strictly greater than 0.72, and a score exactly
equal to the threshold is classified deepfake. -/
theorem videoFusion_threshold (f a t s : ℚ)
    (hf : 0 ≤ f ∧ f ≤ 1) (ha : 0 ≤ a ∧ a ≤ 1)
    (ht : 0 ≤ t ∧ t ≤ 1) (hs : 0 ≤ s ∧ s ≤ 1) :
    videoOverall f a t s
        = f * (35/100) + a * (25/100) + t * (25/100) + s * (15/100)
    ∧ (videoVerdict (videoOverall f a t s) = "authentic"
        ↔ (72/100 : ℚ) < videoOverall f a t s)
    ∧ (videoOverall f a t s = 72/100 →
        videoVerdict (videoOverall f a t s) = "deepfake") := by
  refine ⟨rfl, ?_, ?_⟩
  · by_cases h : (72/100 : ℚ) < videoOverall f a t s <;> simp [videoVerdict, h]
  · intro h
    simp [videoVerdict, h]

/-- Closed instantiation of videoFusion_threshold at the threshold tie:
all four scores 0.72 give an overall score of exactly 0.72 and the
verdict deepfake. -/
theorem videoFusion_threshold_witness :
    ((0:ℚ) ≤ 72/100 ∧ (72/100:ℚ) ≤ 1)
    ∧ videoOverall (72/100) (72/100) (72/100) (72/100) = 72/100
    ∧ videoVerdict (videoOverall (72/100) (72/100) (72/100) (72/100)) = "deepfake" :=
  ⟨by norm_num, by norm_num [videoOverall],
    (videoFusion_threshold (72/100) (72/100) (72/100) (72/100)
      (by norm_num) (by norm_num) (by norm_num) (by norm_num)).2.2
      (by norm_num [videoOverall])⟩

/-- Claim C4: with every input signal in [0,1], each modality's weighted
fusion (image 0.6/0.2/0.2, audio 0.4/0.3/0.3, video
0.35/0.25/0.25/0.15) lands in [0,1] and the derived confidence, the
overall score times 100, lands in [0,100]. -/
theorem fusion_bounds (a l c n k r f av t s : ℚ)
    (ha : 0 ≤ a ∧ a ≤ 1) (hl : 0 ≤ l ∧ l ≤ 1) (hc : 0 ≤ c ∧ c ≤ 1)
    (hn : 0 ≤ n ∧ n ≤ 1) (hk : 0 ≤ k ∧ k ≤ 1) (hr : 0 ≤ r ∧ r ≤ 1)
    (hf : 0 ≤ f ∧ f ≤ 1) (hav : 0 ≤ av ∧ av ≤ 1)
    (ht : 0 ≤ t ∧ t ≤ 1) (hs : 0 ≤ s ∧ s ≤ 1) :
    (0 ≤ imageOverall a l c ∧ imageOverall a l c ≤ 1
      ∧ 0 ≤ imageOverall a l c * 100 ∧ imageOverall a l c * 100 ≤ 100)
    ∧ (0 ≤ audioOverall n k r ∧ audioOverall n k r ≤ 1
      ∧ 0 ≤ audioOverall n k r * 100 ∧ audioOverall n k r * 100 ≤ 100)
    ∧ (0 ≤ videoOverall f av t s ∧ videoOverall f av t s ≤ 1
      ∧ 0 ≤ videoOverall f av t s * 100 ∧ videoOverall f av t s * 100 ≤ 100) := by
  obtain ⟨ha0, ha1⟩ := ha; obtain ⟨hl0, hl1⟩ := hl; obtain ⟨hc0, hc1⟩ := hc
  obtain ⟨hn0, hn1⟩ := hn; obtain ⟨hk0, hk1⟩ := hk; obtain ⟨hr0, hr1⟩ := hr
  obtain ⟨hf0, hf1⟩ := hf; obtain ⟨hav0, hav1⟩ := hav
  obtain ⟨ht0, ht1⟩ := ht; obtain ⟨hs0, hs1⟩ := hs
  simp only [imageOverall, audioOverall, videoOverall]
  refine ⟨⟨?_, ?_, ?_, ?_⟩, ⟨?_, ?_, ?_, ?_⟩, ⟨?_, ?_, ?_, ?_⟩⟩ <;> linarith

/-- Closed instantiation of fusion_bounds with every signal 1/2. -/
theorem fusion_bounds_witness :
    ((0:ℚ) ≤ 1/2 ∧ (1/2:ℚ) ≤ 1)
    ∧ (0 ≤ imageOverall (1/2) (1/2) (1/2) ∧ imageOverall (1/2) (1/2) (1/2) ≤ 1
      ∧ 0 ≤ imageOverall (1/2) (1/2) (1/2) * 100
      ∧ imageOverall (1/2) (1/2) (1/2) * 100 ≤ 100) :=
  ⟨by norm_num,
    (fusion_bounds (1/2) (1/2) (1/2) (1/2) (1/2) (1/2) (1/2) (1/2) (1/2) (1/2)
      (by norm_num) (by norm_num) (by norm_num) (by norm_num) (by norm_num)
      (by norm_num) (by norm_num) (by norm_num) (by norm_num) (by norm_num)).1⟩

/-- Claim C5: frame sampling uses stride 1 when the frame count is at
most max_frames = 30 and stride floor(frame_count / 30) otherwise, and
never returns more than 30 frames; frame_count 100 gives stride 3 and
30 frames, frame_count 10 gives stride 1 and exactly 10 frames. -/
theorem frame_sampling (n : ℕ) :
    (n ≤ 30 → sampleStep n 30 = 1)
    ∧ (30 < n → sampleStep n 30 = n / 30)
    ∧ (extractFrameIndices n 30).length ≤ 30
    ∧ sampleStep 100 30 = 3
    ∧ (extractFrameIndices 100 30).length = 30
    ∧ sampleStep 10 30 = 1
    ∧ (extractFrameIndices 10 30).length = 10 := by
  refine ⟨?_, ?_, ?_, by decide, by decide, by decide, by decide⟩
  · intro h; simp [sampleStep, h]
  · intro h; simp [sampleStep, Nat.not_le.mpr h]
  · simp only [extractFrameIndices, List.length_take]
    omega

/-- Closed instantiation of frame_sampling at frame count 100. -/
theorem frame_sampling_witness :
    30 < 100 ∧ sampleStep 100 30 = 100 / 30 :=
  ⟨by decide, (frame_sampling 100).2.1 (by decide)⟩

/-- Claim C6 counterexample: a 4-second audio stream at the librosa
default sample rate 22050 splits into segments of 66150 and 22050
samples.  Reading the discard rule as "discard segments shorter than
1 second" keeps both segments and predicts a pairwise-similarity
result, but the source keeps only segments strictly longer than one
second, finds a single usable segment, and returns the short-audio
default with no avg_similarity key. -/
theorem speaker_boundary_counterexample :
    (usableSegLensSpecRead 88200 22050).length = 2
    ∧ (verify_speaker_consistency_specRead 88200 22050 (fun _ => [1]) (8/10)
        false).avg_similarity = some 1
    ∧ (usableSegLens 88200 22050).length = 1
    ∧ (verify_speaker_consistency 88200 22050 (fun _ => [1]) (8/10)
        false).avg_similarity = none
    ∧ (verify_speaker_consistency 88200 22050 (fun _ => [1]) (8/10)
        false).consistency_score = 8/10 := by
  refine ⟨by decide, ?_, by decide, ?_, ?_⟩ <;>
    norm_num [verify_speaker_consistency, verify_speaker_consistency_specRead,
      usableSegLens, usableSegLensSpecRead, segmentLengths, rangeStep,
      pairwiseDots, dot, mean, List.range_succ]

/-- Helper: with at least two embeddings the pairwise-similarity list is
nonempty. -/
theorem pairwiseDots_isEmpty_false (l : List (List ℚ)) (h : 2 ≤ l.length) :
    (pairwiseDots l).isEmpty = false := by
  match l with
  | [] => simp at h
  | [e] => simp at h
  | e1 :: e2 :: rest => simp [pairwiseDots]

/-- Claim C6 as amended: the speaker-consistency extractor splits the
audio into 3-second segments and keeps only segments strictly longer
than one second (a segment of exactly one second is discarded); with
fewer than 2 kept segments it returns the neutral default consistency
score 0.8 (it is a total function, so it never raises), and with 2 or
more it returns the mean of the pairwise similarities over all segment
pairs together with a consistency score. -/
theorem speaker_consistency_amended (n sr : ℕ) (embed : ℕ → List ℚ) (cs : ℚ)
    (hsr : 0 < sr) :
    ((usableSegLens n sr).length < 2 →
      verify_speaker_consistency n sr embed cs false
        = { consistency_score := 8/10, num_segments := none, avg_similarity := none })
    ∧ (2 ≤ (usableSegLens n sr).length →
      verify_speaker_consistency n sr embed cs false
        = { consistency_score := cs
            num_segments := some (segmentLengths n sr).length
            avg_similarity := some (mean (pairwiseDots
              ((List.range (usableSegLens n sr).length).map embed))) }) := by
  constructor
  · intro h
    simp [verify_speaker_consistency, h]
  · intro h
    have hlen : ((List.range (usableSegLens n sr).length).map embed).length
        = (usableSegLens n sr).length := by simp
    have hne : (pairwiseDots ((List.range (usableSegLens n sr).length).map embed)).isEmpty
        = false := pairwiseDots_isEmpty_false _ (by simpa [hlen])
    simp [verify_speaker_consistency, Nat.not_lt.mpr h, hne]

/-- Closed instantiation of speaker_consistency_amended on a 6-second
audio stream at sample rate 22050: two usable segments, whose pairwise
mean similarity is returned. -/
theorem speaker_consistency_amended_witness :
    0 < 22050 ∧ 2 ≤ (usableSegLens 132300 22050).length
    ∧ (verify_speaker_consistency 132300 22050 (fun i => [(i : ℚ) + 1]) (8/10)
        false).avg_similarity = some 2 := by
  have h := (speaker_consistency_amended 132300 22050 (fun i => [(i : ℚ) + 1]) (8/10)
    (by decide)).2 (by decide)
  refine ⟨by decide, by decide, ?_⟩
  rw [h]
  norm_num [usableSegLens, segmentLengths, rangeStep, pairwiseDots, dot, mean,
    List.range_succ]

/-- Claim C7 at its failing input: with a single sampled frame the
temporal analysis does return the neutral default 0.8, but under the
key consistency_score while detect reads avg_consistency, so the
detection raises a KeyError instead of producing a result. -/
theorem temporal_default_keyError :
    (analyze_temporal_consistency [0] benignRun.pairScore false).consistency_score
        = some (8/10)
    ∧ (analyze_temporal_consistency [0] benignRun.pairScore false).avg_consistency
        = none
    ∧ outcomeError (videoDetect { benignRun with framesResult := some [0] }).1
        = some PyErr.keyErrorAvgConsistency
    ∧ outcomeError (videoDetect { benignRun with framesResult := some [] }).1
        = some PyErr.indexErrorFrames := by
  refine ⟨?_, rfl, rfl, rfl⟩
  norm_num [analyze_temporal_consistency]

/-- Claim C8 at its failing input: when the face analysis of the
representative frame raises, VideoDeepfakeDetector.detect propagates
the error but the temporary frame file written at line 201 is never
unlinked (the finally block only removes the audio file), so it remains
on disk; on the success path both temporary files are released. -/
theorem temp_frame_leak :
    (videoDetect { benignRun with imageSignals := none }).2
        = { frameFile := true, audioFile := false }
    ∧ outcomeError (videoDetect { benignRun with imageSignals := none }).1
        = some PyErr.extraction
    ∧ (videoDetect benignRun).2 = { frameFile := false, audioFile := false } :=
  ⟨rfl, rfl, rfl⟩

/-- Claim C9 counterexample: a video run in which the audio-video sync
extractor fails does not raise; detect returns a normal result whose
sync score is the substituted neutral 0.5, and likewise a failing
speaker-consistency extractor yields a result carrying the substituted
consistency 0.5. -/
theorem sync_failure_substituted :
    outcomeError (videoDetect { benignRun with syncFails := true }).1 = none
    ∧ outcomeSyncScore (videoDetect { benignRun with syncFails := true }).1
        = some (1/2)
    ∧ outcomeSpeaker (videoDetect { benignRun with speakerFails := true }).1
        = some { consistency_score := 1/2, num_segments := none, avg_similarity := none } := by
  refine ⟨rfl, ?_, ?_⟩ <;>
    norm_num [videoDetect, benignRun, outcomeSyncScore, outcomeSpeaker,
      analyze_audio_video_sync, analyze_temporal_consistency,
      verify_speaker_consistency]

/-- Claim C9 as amended: failures of the frame extractor, of the audio
extractor, of the image authenticity analysis, and of the
voice-characteristics analysis propagate and fail the whole detection;
but failures inside the audio-video sync, speaker-consistency and
temporal-consistency extractors are absorbed silently: detect returns
a normal result in which the failed signal is replaced by the
substituted neutral value 0.5. -/
theorem extractor_failure_policy :
    (∀ run : VideoRun, run.framesResult = none →
      (videoDetect run).1 = Except.error PyErr.extraction)
    ∧ (∀ run : VideoRun, run.audioWriteFails = true →
      ∀ frames, run.framesResult = some frames →
      (videoDetect run).1 = Except.error PyErr.extraction)
    ∧ (∀ run : VideoRun, ∀ f fs, run.framesResult = some (f :: fs) →
      run.audioWriteFails = false → run.imageSignals = none →
      (videoDetect run).1 = Except.error PyErr.extraction)
    ∧ (∀ run : VideoRun, ∀ f fs a l c faces,
      run.framesResult = some (f :: fs) → run.audioWriteFails = false →
      run.imageSignals = some (a, l, c, faces) → run.audioSignals = none →
      (videoDetect run).1 = Except.error PyErr.extraction)
    ∧ outcomeSyncScore (videoDetect { benignRun with syncFails := true }).1
        = some (1/2)
    ∧ outcomeSpeaker (videoDetect { benignRun with speakerFails := true }).1
        = some { consistency_score := 1/2, num_segments := none, avg_similarity := none }
    ∧ outcomeTemporalAvg (videoDetect { benignRun with temporalFails := true }).1
        = some (some (1/2)) := by
  refine ⟨?_, ?_, ?_, ?_, ?_, ?_, ?_⟩
  · intro run h
    simp [videoDetect, h]
  · intro run h frames hf
    simp [videoDetect, h, hf]
  · intro run f fs hf haw hi
    simp [videoDetect, hf, haw, hi]
  · intro run f fs a l c faces hf haw hi ha
    simp [videoDetect, hf, haw, hi, ha]
  · norm_num [videoDetect, benignRun, outcomeSyncScore,
      analyze_audio_video_sync, analyze_temporal_consistency]
  · norm_num [videoDetect, benignRun, outcomeSpeaker,
      analyze_temporal_consistency, verify_speaker_consistency]
  · norm_num [videoDetect, benignRun, outcomeTemporalAvg,
      analyze_temporal_consistency]

/-- Closed instantiation of extractor_failure_policy: a failing frame
extraction propagates out of detect. -/
theorem extractor_failure_policy_witness :
    ({ benignRun with framesResult := none } : VideoRun).framesResult = none
    ∧ (videoDetect { benignRun with framesResult := none }).1
        = Except.error PyErr.extraction :=
  ⟨rfl, extractor_failure_policy.1 { benignRun with framesResult := none } rfl⟩

/-- Claim C10: the video detector fuses the image and audio sub-results
through their rounded confidence fields: for every successful run the
face and audio inputs of the fusion are round(score*100, 2)/100 of the
exact sub-scores, and there are sub-score inputs (image signals 0.9,
0.8, 0.80005) on which the rounded fusion differs from the fusion of
the exact sub-scores. -/
theorem video_fusion_uses_rounded_confidences (a l c n k r t s : ℚ) (faces : ℕ) :
    outcomeConfidence (videoDetect { benignRun with
        imageSignals := some (a, l, c, faces)
        audioSignals := some (n, k, r)
        pairScore := fun _ => t
        syncScore := s }).1
      = some (round2 (videoOverall (round2 (imageOverall a l c * 100) / 100)
          (round2 (audioOverall n k r * 100) / 100) t s * 100))
    ∧ round2 (imageOverall (9/10) (8/10) (16001/20000) * 100) / 100
        ≠ imageOverall (9/10) (8/10) (16001/20000)
    ∧ videoOverall (round2 (imageOverall (9/10) (8/10) (16001/20000) * 100) / 100)
          (round2 (audioOverall (1/2) (1/2) (1/2) * 100) / 100) 0 0
        ≠ videoOverall (imageOverall (9/10) (8/10) (16001/20000))
          (audioOverall (1/2) (1/2) (1/2)) 0 0 := by
  refine ⟨?_, ?_, ?_⟩
  · show some (round2 (videoOverall (round2 (imageOverall a l c * 100) / 100)
        (round2 (audioOverall n k r * 100) / 100)
        (mean ((List.range (2 - 1)).map (fun _ => t))) s * 100)) = _
    rw [show mean ((List.range (2 - 1)).map (fun _ : ℕ => t)) = t from by
      simp [mean]]
  · norm_num [round2, round_eq, imageOverall]
  · norm_num [round2, round_eq, imageOverall, audioOverall, videoOverall]

end Netraone
